import Mathlib

/-!
# Verification of the dubbo-trial examples

Shallow embedding of the repository at the JSON-value level: the external
JSON libraries (orjson, json) are modelled as the identity between byte
frames and JSON syntax trees, so `dumps`/`loads` become the `Json` tree
itself, with `Option Json` standing for the result of parsing bytes
(`none` = the parse raised, i.e. the bytes were not valid JSON).  The
repository code that builds and projects dictionaries is translated
function by function from the Python source.

The streaming call runtime (Stream, Dispatcher, StubInvoker) lives in the
external dubbo library, not in this repository; where a property needs it,
it is modelled from the specification and marked as such in its doc
comment.
-/

/-- A JSON value, the runtime shape of everything orjson / json / pydantic
move around.  Numbers are integers: every numeric field in the repository
(ids, timestamps) is an int. -/
inductive Json where
  | null : Json
  | bool (b : Bool) : Json
  | num (n : Int) : Json
  | str (s : String) : Json
  | arr (elems : List Json) : Json
  | obj (fields : List (String × Json)) : Json
deriving Repr

/-- Errors a decode / service path can raise.  `decodeError` models the
JSON parser raising on malformed bytes; the others model the named Python
exceptions. -/
inductive PyErr where
  | decodeError : PyErr
  | keyError (k : String) : PyErr
  | attributeError : PyErr
  | typeError : PyErr
  | validationError (field : String) : PyErr
  | protocolViolation : PyErr
deriving Repr

/-- First-match lookup in an association list; Python dict keys are unique,
so this is exactly dict lookup. -/
def lookupField : List (String × Json) → String → Option Json
  | [], _ => none
  | (k, v) :: rest, key => if k = key then some v else lookupField rest key

/-- Python `d.get(key, default)`: only defined on dicts, anything else
raises AttributeError. -/
def dictGet (j : Json) (key : String) (dflt : Json) : Except PyErr Json :=
  match j with
  | .obj fields => .ok ((lookupField fields key).getD dflt)
  | _ => .error .attributeError

/-- Python `d[key]`: KeyError when absent, TypeError when the receiver is
not a dict. -/
def dictIndex (j : Json) (key : String) : Except PyErr Json :=
  match j with
  | .obj fields =>
    match lookupField fields key with
    | some v => .ok v
    | none => .error (.keyError key)
  | _ => .error .typeError

/-- Python truthiness of a JSON value: None, False, 0, empty string, empty
list and empty dict are falsy. -/
def pyFalsy : Json → Bool
  | .null => true
  | .bool b => !b
  | .num n => n == 0
  | .str s => s == ""
  | .arr l => l.isEmpty
  | .obj f => f.isEmpty

/-- A single-quote character, kept out of string literals. -/
def sQuote : String := String.singleton (Char.ofNat 39)

mutual

/-- Python `repr` of a JSON value (string escaping elided: no message in
the examples contains characters that repr would escape). -/
def pyRepr : Json → String
  | .null => "None"
  | .bool true => "True"
  | .bool false => "False"
  | .num n => toString n
  | .str s => sQuote ++ s ++ sQuote
  | .arr l => "[" ++ pyReprElems l ++ "]"
  | .obj f => "\x7b" ++ pyReprFields f ++ "\x7d"

/-- `repr` of list elements, comma separated. -/
def pyReprElems : List Json → String
  | [] => ""
  | [x] => pyRepr x
  | x :: y :: xs => pyRepr x ++ ", " ++ pyReprElems (y :: xs)

/-- `repr` of dict entries, comma separated. -/
def pyReprFields : List (String × Json) → String
  | [] => ""
  | [(k, v)] => sQuote ++ k ++ sQuote ++ ": " ++ pyRepr v
  | (k, v) :: y :: xs => sQuote ++ k ++ sQuote ++ ": " ++ pyRepr v ++ ", " ++ pyReprFields (y :: xs)

end

/-- Python `str()` as used by f-string interpolation: identity on strings,
`repr` otherwise. -/
def pyStr : Json → String
  | .str s => s
  | j => pyRepr j

/-! ## src/server/common.py -/

/-- `RequestMessage` dataclass (`src/server/common.py`): a method name and
a params dict.  The fields carry the dataclass annotation types; the
deserializer below therefore checks the constructors it projects, where
Python, being dynamically typed, would let a mistyped field flow through
unchecked.  No claim depends on mistyped fields. -/
structure RequestMessage where
  method : String
  params : List (String × Json)
deriving Repr

/-- `RequestMessage.serialize`: orjson.dumps of the two-key dict; modelled
as the JSON tree handed to orjson. -/
def RequestMessage.serialize (m : RequestMessage) : Json :=
  .obj [("method", .str m.method), ("params", .obj m.params)]

/-- `RequestMessage.deserialize`: orjson.loads (malformed bytes raise,
modelled by the `none` input) followed by indexing `obj["method"]` and
`obj["params"]`. -/
def RequestMessage.deserialize (data : Option Json) : Except PyErr RequestMessage :=
  match data with
  | none => .error .decodeError
  | some j => do
    let mv ← dictIndex j "method"
    let pv ← dictIndex j "params"
    match mv, pv with
    | .str s, .obj fields => .ok ⟨s, fields⟩
    | _, _ => .error .typeError

/-- `ResponseMessage` dataclass (`src/server/common.py`): a single
`result` field of arbitrary JSON-representable type. -/
structure ResponseMessage where
  result : Json
deriving Repr

/-- `ResponseMessage.serialize`: orjson.dumps of the one-key dict. -/
def ResponseMessage.serialize (r : ResponseMessage) : Json :=
  .obj [("result", r.result)]

/-- `ResponseMessage.deserialize`: orjson.loads followed by
`obj["result"]`. -/
def ResponseMessage.deserialize (data : Option Json) : Except PyErr ResponseMessage :=
  match data with
  | none => .error .decodeError
  | some j => do
    let rv ← dictIndex j "result"
    .ok ⟨rv⟩

/-! ## Serializer glue shared by the example clients and servers

Each example defines `request_serializer` / `request_deserializer` /
`response_serializer` / `response_deserializer` free functions wrapping the
two message dataclasses. -/

/-- `request_deserializer` (src/server.py, src/stream/server.py,
src/server/server.py): `RequestMessage.deserialize(data)`. -/
def request_deserializer (data : Option Json) : Except PyErr RequestMessage :=
  RequestMessage.deserialize data

/-- `response_serializer` (same three files):
`ResponseMessage(result=result).serialize()` applied to the handler result
string. -/
def response_serializer (result : String) : Json :=
  ResponseMessage.serialize ⟨.str result⟩

/-- `response_deserializer` (src/client.py, src/stream/client.py,
src/server/client.py): `ResponseMessage.deserialize(data).result`. -/
def response_deserializer (data : Option Json) : Except PyErr Json := do
  let r ← ResponseMessage.deserialize data
  .ok r.result

/-! ## src/server.py and src/client.py — the Unary example -/

/-- `GreeterServicer.say_hello` (src/server.py): greet
`request.params.get("name", "Guest")`, formatted with an f-string. -/
def GreeterServicer.say_hello (request : RequestMessage) : String :=
  let name := (lookupField request.params "name").getD (.str "Guest")
  "Hello, " ++ pyStr name ++ "!"

/-- `request_serializer` (src/client.py): wrap a name into
`RequestMessage(method="sayHello", params=\x7b"name": name\x7d)` and
serialize it. -/
def unaryRequestSerializer (name : String) : Json :=
  (RequestMessage.mk "sayHello" [("name", .str name)]).serialize

/-! ## The call runtime, modelled from the spec

The Stream / Dispatcher / StubInvoker runtime is the external dubbo
library, absent from this repository; the definitions below are modelled
from the specification (sections 4.1, 4.3, 4.4, 6). -/

/-- The ternary read outcome of spec section 6: `Message(T)`,
`EndOfStream`, `Timeout`. -/
inductive ReadOutcome where
  | message (v : Json) : ReadOutcome
  | endOfStream : ReadOutcome
  | timeout : ReadOutcome
deriving Repr

/-- Modelled from the spec (missing from src/: the Unary Dispatcher of the
external dubbo runtime).  Input is the completed inbound frame transcript
of one call, in FIFO order, end-of-stream implicit at the end of the list.
Per section 4.3 the Dispatcher blocks until exactly one request has
arrived and the client signals end-of-stream; if more than one request
arrives before end-of-stream it fails with `ProtocolViolation` and
produces no response; per section 9, zero requests is also treated as a
`ProtocolViolation`.  On the single frame it applies the request codec,
the user callback and the response codec, then closes the outbound
direction. -/
def runUnary (callback : RequestMessage → String) (frames : List Json) :
    Except PyErr (List Json) :=
  match frames with
  | [f] => do
    let req ← request_deserializer (some f)
    .ok [response_serializer (callback req)]
  | _ => .error .protocolViolation

/-- Decode inbound frames one at a time in arrival order with the request
codec, as section 4.3 requires of the Dispatcher. -/
def decodeFrames : List Json → Except PyErr (List RequestMessage)
  | [] => .ok []
  | f :: fs => do
    let r ← request_deserializer (some f)
    let rest ← decodeFrames fs
    .ok (r :: rest)

/-- Modelled from the spec (missing from src/: the ClientStreaming
Dispatcher of the external dubbo runtime).  Per section 4.3: decode each
inbound frame in arrival order with the request codec, feed the decoded
requests to the callback as a finite sequence, encode the single returned
response, write it, then close the outbound direction. -/
def runClientStreaming (callback : List RequestMessage → Except PyErr String)
    (frames : List Json) : Except PyErr (List Json) := do
  let reqs ← decodeFrames frames
  let resp ← callback reqs
  .ok [response_serializer resp]

/-- Modelled from the spec (missing from src/: the BidiStreaming
Dispatcher of the external dubbo runtime).  Per section 4.3: decode each
inbound frame in arrival order, hand the lazy request sequence to the
callback, encode and write each produced output immediately, closing the
outbound direction when the output sequence is exhausted. -/
def runBidiStreaming (callback : List RequestMessage → Except PyErr (List String))
    (frames : List Json) : Except PyErr (List Json) := do
  let reqs ← decodeFrames frames
  let resps ← callback reqs
  .ok (resps.map response_serializer)

/-- Decode outbound frames one at a time with the response codec of the
example clients. -/
def decodeResponses : List Json → Except PyErr (List Json)
  | [] => .ok []
  | f :: fs => do
    let v ← response_deserializer (some f)
    let rest ← decodeResponses fs
    .ok (v :: rest)

/-- Modelled from the spec (missing from src/: the StubInvoker read loop).
The client decodes each response frame with the response codec; after the
last frame the closed outbound direction is observed as `EndOfStream`
(section 4.4 / 6). -/
def stubReadAll (frames : List Json) : Except PyErr (List ReadOutcome) := do
  let vals ← decodeResponses frames
  .ok (vals.map ReadOutcome.message ++ [.endOfStream])

/-- `GreeterServiceStub.say_hello` (src/client.py) driven against the
spec-modelled Unary runtime: serialize the one request, run the call, read
back the single response through `response_deserializer`. -/
def GreeterServiceStub.say_hello (name : String) : Except PyErr (List ReadOutcome) := do
  let outFrames ← runUnary GreeterServicer.say_hello [unaryRequestSerializer name]
  stubReadAll outFrames

/-! ## src/stream/server.py and src/stream/client.py — ClientStreaming -/

/-- Python `s.lower()`: character-wise lowering (all example text is
ASCII, where `Char.toLower` and Python coincide). -/
def pyLower (s : String) : String := ⟨s.data.map Char.toLower⟩

/-- The scan behind `len(s.split(sep))` for a non-empty separator: one
piece more than the number of non-overlapping left-to-right separator
occurrences.  Fuel is structural so the definition evaluates; the entry
point below supplies enough fuel to scan the whole string. -/
def splitCountGo (sep : List Char) : Nat → List Char → Nat
  | 0, _ => 1
  | _, [] => 1
  | fuel + 1, c :: rest =>
    if sep.isPrefixOf (c :: rest) then
      splitCountGo sep fuel (List.drop (sep.length - 1) rest) + 1
    else splitCountGo sep fuel rest

/-- Python `len(s.split(sep))` for a non-empty separator; in particular
`len("".split(sep)) = 1`, as in Python. -/
def pySplitLen (sep s : String) : Nat :=
  splitCountGo sep.data (s.data.length + 1) s.data

/-- Extract `request.params.get("name", "")` as a string; Python string
concatenation raises TypeError on a non-string operand. -/
def getNameStr (r : RequestMessage) : Except PyErr String :=
  match (lookupField r.params "name").getD (.str "") with
  | .str s => .ok s
  | _ => .error .typeError

/-- The loop body of `StreamingServicer.process_names`
(src/stream/server.py): fold the names into a comma separated string, then
report `len(combined_names.split(", "))` as the count. -/
def processNamesGo : List RequestMessage → String → Except PyErr String
  | [], combined =>
    .ok ("Processed " ++ toString (pySplitLen ", " combined) ++ " names: " ++ combined)
  | r :: rs, combined => do
    let name ← getNameStr r
    processNamesGo rs (if combined ≠ "" then combined ++ ", " ++ name else name)

/-- `StreamingServicer.process_names` (src/stream/server.py). -/
def StreamingServicer.process_names (reqs : List RequestMessage) : Except PyErr String :=
  processNamesGo reqs ""

/-- `request_serializer` (src/stream/client.py): wrap each name into
`RequestMessage(method="processNames", params=\x7b"name": name\x7d)`. -/
def streamRequestSerializer (name : String) : Json :=
  (RequestMessage.mk "processNames" [("name", .str name)]).serialize

/-- `StreamingServiceStub.process_names` (src/stream/client.py): serialize
the names in generator order, run the client-streaming call, read back the
single response. -/
def StreamingServiceStub.process_names (names : List String) :
    Except PyErr (List ReadOutcome) := do
  let outFrames ← runClientStreaming StreamingServicer.process_names
    (names.map streamRequestSerializer)
  stubReadAll outFrames

/-! ## src/server/server.py and src/server/client.py — BidiStreaming chat -/

/-- Extract `request.params.get("message", "")` as a string;
`message.lower()` raises AttributeError on a non-string. -/
def getMessageStr (r : RequestMessage) : Except PyErr String :=
  match (lookupField r.params "message").getD (.str "") with
  | .str s => .ok s
  | _ => .error .attributeError

/-- Python `needle in haystack` on lists of characters: true iff needle is
a contiguous sublist (the empty needle is contained in everything). -/
def containsSub (needle : List Char) : List Char → Bool
  | [] => needle.isEmpty
  | c :: rest => needle.isPrefixOf (c :: rest) || containsSub needle rest

/-- Python `needle in haystack` on strings. -/
def pyIn (needle haystack : String) : Bool :=
  containsSub needle.data haystack.data

/-- The per-message response mapping inside `ChatServicer.chat`
(src/server/server.py): five case-insensitive substring checks in order,
else echo the message. -/
def ChatServicer.respond (message : String) : String :=
  let low := pyLower message
  if pyIn "hello" low then "Hello! Welcome to our service!"
  else if pyIn "how are you" low then
    "I" ++ sQuote ++ "m doing well, thank you for asking!"
  else if pyIn "services" low then
    "We provide various streaming examples for Dubbo Python."
  else if pyIn "thank you" low then
    "You" ++ sQuote ++ "re welcome! Anything else I can help with?"
  else if pyIn "goodbye" low then "Goodbye! Have a great day!"
  else "I received your message: " ++ sQuote ++ message ++ sQuote

/-- The final summary yielded by `ChatServicer.chat` after the request
iterator is exhausted, with `n` the number of messages processed. -/
def chatFinal (n : Nat) : String :=
  "Chat session complete. Processed " ++ toString n ++ " messages."

/-- The generator loop of `ChatServicer.chat`: one response per request in
order, counting messages, then the final summary. -/
def chatGo : List RequestMessage → Nat → Except PyErr (List String)
  | [], n => .ok [chatFinal n]
  | r :: rs, n => do
    let m ← getMessageStr r
    let tail ← chatGo rs (n + 1)
    .ok (ChatServicer.respond m :: tail)

/-- `ChatServicer.chat` (src/server/server.py). -/
def ChatServicer.chat (reqs : List RequestMessage) : Except PyErr (List String) :=
  chatGo reqs 0

/-- `request_serializer` (src/server/client.py): wrap each chat line into
`RequestMessage(method="chat", params=\x7b"message": name\x7d)`. -/
def chatRequestSerializer (message : String) : Json :=
  (RequestMessage.mk "chat" [("message", .str message)]).serialize

/-! ## src/demo — the User Management demo

The dataclass models of current_approach and the pydantic models of
improved_approach are field-for-field identical, so one set of Lean
structures serves both; the two serialization stacks are embedded
separately.  As with `RequestMessage`, fields carry the declared types and
the decoders check the constructors they project (Python would let a
mistyped present field flow through unchecked; no claim depends on one). -/

/-- `Address` (src/demo/current_approach/models.py and
src/demo/improved_approach/models.py). -/
structure Address where
  street : String
  city : String
  country : String
  postal_code : String
deriving Repr

/-- `User` (both models.py files): three required fields, four with
defaults. -/
structure User where
  id : Int
  name : String
  email : String
  active : Bool
  roles : List String
  address : Option Address
  metadata : List (String × String)
deriving Repr

/-- `CreateUserRequest` (both models.py files). -/
structure CreateUserRequest where
  user : User
deriving Repr

/-- `CreateUserResponse` (both models.py files). -/
structure CreateUserResponse where
  user : User
  status : String
  created_at : Int
deriving Repr

/-- `GetUserRequest` (both models.py files). -/
structure GetUserRequest where
  id : Int
deriving Repr

/-- `GetUserResponse` (both models.py files). -/
structure GetUserResponse where
  user : Option User
deriving Repr

/-- Expect a JSON string. -/
def expectStr : Json → Except PyErr String
  | .str s => .ok s
  | _ => .error .typeError

/-- Expect a JSON integer. -/
def expectNum : Json → Except PyErr Int
  | .num n => .ok n
  | _ => .error .typeError

/-- Expect a JSON boolean. -/
def expectBool : Json → Except PyErr Bool
  | .bool b => .ok b
  | _ => .error .typeError

/-- Expect every element of a list to be a JSON string, in order. -/
def expectStrJsons : List Json → Except PyErr (List String)
  | [] => .ok []
  | j :: js => do
    let s ← expectStr j
    let rest ← expectStrJsons js
    .ok (s :: rest)

/-- Expect a JSON array of strings. -/
def expectStrList : Json → Except PyErr (List String)
  | .arr l => expectStrJsons l
  | _ => .error .typeError

/-- Expect every value of an association list to be a JSON string. -/
def expectStrPairsGo : List (String × Json) → Except PyErr (List (String × String))
  | [] => .ok []
  | (k, v) :: rest => do
    let s ← expectStr v
    let tail ← expectStrPairsGo rest
    .ok ((k, s) :: tail)

/-- Expect a JSON object with string values. -/
def expectStrPairs : Json → Except PyErr (List (String × String))
  | .obj f => expectStrPairsGo f
  | _ => .error .typeError

/-! ### src/demo/current_approach/serializers.py — manual JSON -/

/-- `serialize_address`: `None` for a missing address (dataclass instances
are always truthy, `None` is falsy), else the four-key dict. -/
def serialize_address : Option Address → Json
  | none => .null
  | some a => .obj [("street", .str a.street), ("city", .str a.city),
      ("country", .str a.country), ("postal_code", .str a.postal_code)]

/-- `deserialize_address`: falsy input (None, empty dict) gives `None`,
else the four `.get(key, "")` projections. -/
def deserialize_address (data : Json) : Except PyErr (Option Address) :=
  if pyFalsy data then .ok none
  else match data with
    | .obj fields => do
      let street ← expectStr ((lookupField fields "street").getD (.str ""))
      let city ← expectStr ((lookupField fields "city").getD (.str ""))
      let country ← expectStr ((lookupField fields "country").getD (.str ""))
      let postal ← expectStr ((lookupField fields "postal_code").getD (.str ""))
      .ok (some ⟨street, city, country, postal⟩)
    | _ => .error .attributeError

/-- `serialize_user`: the seven-key dict in source order. -/
def serialize_user (u : User) : Json :=
  .obj [("id", .num u.id), ("name", .str u.name), ("email", .str u.email),
    ("active", .bool u.active), ("roles", .arr (u.roles.map .str)),
    ("address", serialize_address u.address),
    ("metadata", .obj (u.metadata.map (fun p => (p.1, .str p.2))))]

/-- `deserialize_user`: `.get` with a default for every field — absent
fields are silently default-filled, only a non-dict receiver raises. -/
def deserialize_user (data : Json) : Except PyErr User :=
  match data with
  | .obj fields => do
    let id ← expectNum ((lookupField fields "id").getD (.num 0))
    let name ← expectStr ((lookupField fields "name").getD (.str ""))
    let email ← expectStr ((lookupField fields "email").getD (.str ""))
    let active ← expectBool ((lookupField fields "active").getD (.bool true))
    let roles ← expectStrList ((lookupField fields "roles").getD (.arr []))
    let address ← deserialize_address ((lookupField fields "address").getD .null)
    let metadata ← expectStrPairs ((lookupField fields "metadata").getD (.obj []))
    .ok ⟨id, name, email, active, roles, address, metadata⟩
  | _ => .error .attributeError

/-- `serialize_create_user_request`: `json.dumps` of the one-key dict,
modelled as the JSON tree. -/
def serialize_create_user_request (request : CreateUserRequest) : Json :=
  .obj [("user", serialize_user request.user)]

/-- `deserialize_create_user_request`: `json.loads` (none = raise on
malformed bytes) then `parsed.get("user", \x7b\x7d)` into
`deserialize_user`. -/
def deserialize_create_user_request (data : Option Json) : Except PyErr CreateUserRequest :=
  match data with
  | none => .error .decodeError
  | some j => do
    let uj ← dictGet j "user" (.obj [])
    let u ← deserialize_user uj
    .ok ⟨u⟩

/-- `serialize_create_user_response`: the three-key dict. -/
def serialize_create_user_response (response : CreateUserResponse) : Json :=
  .obj [("user", serialize_user response.user), ("status", .str response.status),
    ("created_at", .num response.created_at)]

/-- `serialize_get_user_request`: the one-key dict. -/
def serialize_get_user_request (request : GetUserRequest) : Json :=
  .obj [("id", .num request.id)]

/-- `deserialize_get_user_request`: `parsed.get("id", 0)`. -/
def deserialize_get_user_request (data : Option Json) : Except PyErr GetUserRequest :=
  match data with
  | none => .error .decodeError
  | some j => do
    let idj ← dictGet j "id" (.num 0)
    let id ← expectNum idj
    .ok ⟨id⟩

/-- `serialize_get_user_response`: `serialize_user(response.user) if
response.user else None`. -/
def serialize_get_user_response (response : GetUserResponse) : Json :=
  .obj [("user", match response.user with
    | some u => serialize_user u
    | none => .null)]

/-! ### src/demo/improved_approach — pydantic JSON and the mock protobuf

`model_dump_json` is modelled as the JSON tree pydantic would emit (all
fields, definition order, aliases coincide with field names);
`model_validate` / `model_validate_json` as the checking parse: required
fields must be present, optional fields take their declared defaults. -/

/-- A required pydantic field: absent means a ValidationError naming the
field. -/
def requireField (fields : List (String × Json)) (key : String) : Except PyErr Json :=
  match lookupField fields key with
  | some v => .ok v
  | none => .error (.validationError key)

/-- `Address.model_dump_json` tree. -/
def Address.model_dump (a : Address) : Json :=
  .obj [("street", .str a.street), ("city", .str a.city),
    ("country", .str a.country), ("postal_code", .str a.postal_code)]

/-- `Address.model_validate`: all four fields required. -/
def Address.model_validate (j : Json) : Except PyErr Address :=
  match j with
  | .obj fields => do
    let street ← expectStr (← requireField fields "street")
    let city ← expectStr (← requireField fields "city")
    let country ← expectStr (← requireField fields "country")
    let postal ← expectStr (← requireField fields "postal_code")
    .ok ⟨street, city, country, postal⟩
  | _ => .error (.validationError "address")

/-- `User.model_dump_json` tree: all seven fields in definition order, a
missing address dumped as `null`. -/
def User.model_dump (u : User) : Json :=
  .obj [("id", .num u.id), ("name", .str u.name), ("email", .str u.email),
    ("active", .bool u.active), ("roles", .arr (u.roles.map .str)),
    ("address", match u.address with
      | some a => a.model_dump
      | none => .null),
    ("metadata", .obj (u.metadata.map (fun p => (p.1, .str p.2))))]

/-- `User.model_validate`: `id`, `name`, `email` required; `active`,
`roles`, `address`, `metadata` take their declared defaults when
absent. -/
def User.model_validate (j : Json) : Except PyErr User :=
  match j with
  | .obj fields => do
    let id ← expectNum (← requireField fields "id")
    let name ← expectStr (← requireField fields "name")
    let email ← expectStr (← requireField fields "email")
    let active ← match lookupField fields "active" with
      | none => .ok true
      | some v => expectBool v
    let roles ← match lookupField fields "roles" with
      | none => .ok []
      | some v => expectStrList v
    let address ← match lookupField fields "address" with
      | none => .ok none
      | some .null => .ok none
      | some v => do
        .ok (some (← Address.model_validate v))
    let metadata ← match lookupField fields "metadata" with
      | none => .ok []
      | some v => expectStrPairs v
    .ok ⟨id, name, email, active, roles, address, metadata⟩
  | _ => .error (.validationError "user")

/-- `CreateUserRequest.model_dump_json` tree. -/
def CreateUserRequest.model_dump (r : CreateUserRequest) : Json :=
  .obj [("user", r.user.model_dump)]

/-- `CreateUserRequest.model_validate`: `user` required. -/
def CreateUserRequest.model_validate (j : Json) : Except PyErr CreateUserRequest :=
  match j with
  | .obj fields => do
    let u ← User.model_validate (← requireField fields "user")
    .ok ⟨u⟩
  | _ => .error (.validationError "request")

/-- `CreateUserResponse.model_dump_json` tree. -/
def CreateUserResponse.model_dump (r : CreateUserResponse) : Json :=
  .obj [("user", r.user.model_dump), ("status", .str r.status),
    ("created_at", .num r.created_at)]

/-- `CreateUserResponse.model_validate`: all three fields required. -/
def CreateUserResponse.model_validate (j : Json) : Except PyErr CreateUserResponse :=
  match j with
  | .obj fields => do
    let u ← User.model_validate (← requireField fields "user")
    let status ← expectStr (← requireField fields "status")
    let created ← expectNum (← requireField fields "created_at")
    .ok ⟨u, status, created⟩
  | _ => .error (.validationError "response")

/-- `GetUserRequest.model_dump_json` tree. -/
def GetUserRequest.model_dump (r : GetUserRequest) : Json :=
  .obj [("id", .num r.id)]

/-- `GetUserRequest.model_validate`: `id` required. -/
def GetUserRequest.model_validate (j : Json) : Except PyErr GetUserRequest :=
  match j with
  | .obj fields => do
    let id ← expectNum (← requireField fields "id")
    .ok ⟨id⟩
  | _ => .error (.validationError "request")

/-- `GetUserResponse.model_dump_json` tree. -/
def GetUserResponse.model_dump (r : GetUserResponse) : Json :=
  .obj [("user", match r.user with
    | some u => u.model_dump
    | none => .null)]

/-- `GetUserResponse.model_validate`: `user` optional, default `None`. -/
def GetUserResponse.model_validate (j : Json) : Except PyErr GetUserResponse :=
  match j with
  | .obj fields => do
    let u ← match lookupField fields "user" with
      | none => .ok none
      | some .null => .ok none
      | some v => do
        .ok (some (← User.model_validate v))
    .ok ⟨u⟩
  | _ => .error (.validationError "response")

/-! ### src/demo/improved_approach/serializers.py — format dispatch

The `from proto import user_pb2` import fails (no proto package exists in
the repository), so the mock fallback classes are what actually runs:
`SerializeToString` returns the constant placeholder bytes, `FromString`
ignores its input and returns an empty message, and
`json_format.MessageToDict` on a mock raises, so `protobuf_to_model`
validates the empty dict. -/

/-- `SerializationFormat` enum (src/demo/improved_approach/serializers.py). -/
inductive SerializationFormat where
  | json : SerializationFormat
  | protobuf : SerializationFormat
deriving Repr, DecidableEq

/-- A wire frame of the improved approach: either JSON bytes (modelled as
the tree) or the raw placeholder bytes the mock protobuf path emits. -/
inductive Wire where
  | json (j : Json) : Wire
  | raw (s : String) : Wire
deriving Repr

/-- The constant bytes `MockProto.SerializeToString` returns. -/
def mockProtoBytes : String := "mock_serialized_protobuf"

/-- `ProtobufSerializer.serialize`, parametrized by the dump function of
the concrete model class (the role `PROTOBUF_MAPPING` plays in source):
JSON goes through `model_dump_json`, PROTOBUF through the mock, whose
`SerializeToString` yields the constant placeholder bytes for every
model. -/
def ProtobufSerializer.serialize (dump : α → Json) (model : α)
    (format : SerializationFormat) : Wire :=
  match format with
  | .json => .json (dump model)
  | .protobuf => .raw mockProtoBytes

/-- `ProtobufSerializer.deserialize`, parametrized by the validate
function of the concrete model class.  JSON parses and validates the bytes
(`model_validate_json` raises on non-JSON input, e.g. the raw mock bytes);
PROTOBUF ignores the input (`MockProto.FromString` discards it) and
validates the empty dict `json_format.MessageToDict` falls back to. -/
def ProtobufSerializer.deserialize (validate : Json → Except PyErr α) (data : Wire)
    (format : SerializationFormat) : Except PyErr α :=
  match format with
  | .json =>
    match data with
    | .json j => validate j
    | .raw _ => .error .decodeError
  | .protobuf => validate (.obj [])

/-- `serialize_model` (src/demo/improved_approach/serializers.py):
delegate to `ProtobufSerializer.serialize`. -/
def serialize_model (dump : α → Json) (model : α) (format : SerializationFormat) : Wire :=
  ProtobufSerializer.serialize dump model format

/-- `deserialize_model` (src/demo/improved_approach/serializers.py):
delegate to `ProtobufSerializer.deserialize`. -/
def deserialize_model (validate : Json → Except PyErr α) (data : Wire)
    (format : SerializationFormat) : Except PyErr α :=
  ProtobufSerializer.deserialize validate data format

/-! ### src/demo/current_approach/service.py -/

namespace CurrentApproach

/-- The mutable state of the current-approach `UserService`: the
`self.users` dict, keyed by user id. -/
structure ServiceState where
  users : Int → Option User

/-- `UserService.create_user` (src/demo/current_approach/service.py):
deserialize, store the user under `user.id`, answer with a
`CreateUserResponse`.  `now` stands for `int(time.time())`; a raised
deserialization error propagates past the method, leaving `self.users`
untouched, which the state component of the result records. -/
def UserService.create_user (st : ServiceState) (requestBytes : Option Json)
    (now : Int) : ServiceState × Except PyErr Json :=
  match deserialize_create_user_request requestBytes with
  | .error e => (st, .error e)
  | .ok request =>
    let user := request.user
    (⟨fun k => if k = user.id then some user else st.users k⟩,
     .ok (serialize_create_user_response ⟨user, "created", now⟩))

/-- `UserService.get_user` (src/demo/current_approach/service.py): a pure
read of `self.users`. -/
def UserService.get_user (st : ServiceState) (requestBytes : Option Json) :
    ServiceState × Except PyErr Json :=
  match deserialize_get_user_request requestBytes with
  | .error e => (st, .error e)
  | .ok request => (st, .ok (serialize_get_user_response ⟨st.users request.id⟩))

end CurrentApproach

/-! ### src/demo/improved_approach/service.py -/

namespace ImprovedApproach

/-- The state of the improved-approach `UserService`: the `self.users`
dict plus the per-instance `serialization_format`. -/
structure ServiceState where
  users : Int → Option User
  format : SerializationFormat

/-- `UserService.create_user` (src/demo/improved_approach/service.py):
like the current approach but through `deserialize_model` /
`serialize_model` with the instance format. -/
def UserService.create_user (st : ServiceState) (requestBytes : Wire)
    (now : Int) : ServiceState × Except PyErr Wire :=
  match deserialize_model CreateUserRequest.model_validate requestBytes st.format with
  | .error e => (st, .error e)
  | .ok request =>
    let user := request.user
    (⟨fun k => if k = user.id then some user else st.users k, st.format⟩,
     .ok (serialize_model CreateUserResponse.model_dump ⟨user, "created", now⟩ st.format))

/-- `UserService.get_user` (src/demo/improved_approach/service.py). -/
def UserService.get_user (st : ServiceState) (requestBytes : Wire) :
    ServiceState × Except PyErr Wire :=
  match deserialize_model GetUserRequest.model_validate requestBytes st.format with
  | .error e => (st, .error e)
  | .ok request =>
    (st, .ok (serialize_model GetUserResponse.model_dump ⟨st.users request.id⟩ st.format))

end ImprovedApproach

/-! ## Helper lemmas -/

/-- Bind on a successful Except computation reduces. -/
@[simp] theorem exceptBind_ok (a : α) (f : α → Except ε β) :
    (Except.ok a : Except ε α) >>= f = f a := rfl

/-- Bind on a failed Except computation propagates the error. -/
@[simp] theorem exceptBind_error (e : ε) (f : α → Except ε β) :
    (Except.error e : Except ε α) >>= f = .error e := rfl

/-- Mapping the string constructor over a list decodes back to the list. -/
theorem expectStrJsons_map (l : List String) : expectStrJsons (l.map Json.str) = .ok l := by
  induction l with
  | nil => rfl
  | cons x xs ih => simp [expectStrJsons, expectStr, ih]

/-- Wrapping every value of a string dict decodes back to the dict. -/
theorem expectStrPairsGo_map (l : List (String × String)) :
    expectStrPairsGo (l.map (fun p => (p.1, Json.str p.2))) = .ok l := by
  induction l with
  | nil => rfl
  | cons x xs ih => simp [expectStrPairsGo, expectStr, ih]

/-- Manual address round trip. -/
theorem deserialize_address_serialize (a : Option Address) :
    deserialize_address (serialize_address a) = .ok a := by
  cases a with
  | none => rfl
  | some a => rfl

/-- The manual and the pydantic user serializers build the same JSON
tree. -/
theorem serialize_user_eq_model_dump (u : User) : serialize_user u = User.model_dump u := by
  obtain ⟨id, name, email, active, roles, address, metadata⟩ := u
  cases address <;> rfl

/-- Manual user round trip. -/
theorem deserialize_user_serialize (u : User) : deserialize_user (serialize_user u) = .ok u := by
  obtain ⟨id, name, email, active, roles, address, metadata⟩ := u
  simp [deserialize_user, serialize_user, lookupField, expectNum, expectStr, expectBool,
    expectStrList, expectStrPairs, expectStrJsons_map, expectStrPairsGo_map,
    deserialize_address_serialize]

/-- Pydantic address validation round trip, stated on the explicit
four-key object. -/
theorem Address_validate_obj (s c co p : String) :
    Address.model_validate (.obj [("street", .str s), ("city", .str c), ("country", .str co),
      ("postal_code", .str p)]) = .ok ⟨s, c, co, p⟩ := rfl

/-- Pydantic user round trip. -/
theorem User_validate_dump (u : User) : User.model_validate u.model_dump = .ok u := by
  obtain ⟨id, name, email, active, roles, address, metadata⟩ := u
  cases address <;>
    simp [User.model_validate, User.model_dump, Address.model_dump, lookupField, requireField,
      expectNum, expectStr, expectBool, expectStrList, expectStrPairs, expectStrJsons_map,
      expectStrPairsGo_map, Address_validate_obj]

/-- The chat request a client write of `message` arrives as after the
request codec. -/
def chatRequest (m : String) : RequestMessage := ⟨"chat", [("message", .str m)]⟩

/-- Whether a chat message matches one of the five recognized keywords,
case-insensitively as substrings. -/
def matchesChatKeyword (m : String) : Bool :=
  pyIn "hello" (pyLower m) || pyIn "how are you" (pyLower m) || pyIn "services" (pyLower m) ||
    pyIn "thank you" (pyLower m) || pyIn "goodbye" (pyLower m)

/-- The chat generator maps each request in order through the per-message
response and appends the session summary. -/
theorem chatGo_map (msgs : List String) (n : Nat) :
    chatGo (msgs.map chatRequest) n =
      .ok (msgs.map ChatServicer.respond ++ [chatFinal (n + msgs.length)]) := by
  induction msgs generalizing n with
  | nil => rfl
  | cons m ms ih =>
    have h : n + (ms.length + 1) = (n + 1) + ms.length := by omega
    simp [chatGo, chatRequest, getMessageStr, lookupField, List.length_cons, h, ih]

/-- The request codec decodes the serialized chat messages back in
order. -/
theorem decodeFrames_chat (msgs : List String) :
    decodeFrames (msgs.map chatRequestSerializer) = .ok (msgs.map chatRequest) := by
  induction msgs with
  | nil => rfl
  | cons m ms ih =>
    simp [decodeFrames, chatRequestSerializer, chatRequest, ih]
    rfl

/-! ## Claims -/

/-- C1: for every valid typed value, decode after encode is the identity
for the registered codecs: `RequestMessage.deserialize(m.serialize()) == m`
for every `RequestMessage` with JSON-representable params, and
`ResponseMessage.deserialize(r.serialize()) == r` for every
`ResponseMessage` with a JSON-representable result. -/
theorem c1_codec_round_trip :
    (∀ m : RequestMessage, RequestMessage.deserialize (some m.serialize) = .ok m) ∧
    (∀ r : ResponseMessage, ResponseMessage.deserialize (some r.serialize) = .ok r) :=
  ⟨fun _ => rfl, fun _ => rfl⟩

/-- C2: for a ClientStreaming call carrying the names Alice, Bob, Charlie,
David in that order, the decoded request sequence handed to
`StreamingServicer.process_names` carries exactly those names in that
order, and the single response delivered before end-of-stream is the
string `Processed 4 names: Alice, Bob, Charlie, David`. -/
theorem c2_client_streaming_order_and_response :
    StreamingServiceStub.process_names ["Alice", "Bob", "Charlie", "David"] =
      .ok [.message (.str "Processed 4 names: Alice, Bob, Charlie, David"), .endOfStream] ∧
    decodeFrames (["Alice", "Bob", "Charlie", "David"].map streamRequestSerializer) =
      .ok (["Alice", "Bob", "Charlie", "David"].map
        (fun n => RequestMessage.mk "processNames" [("name", .str n)])) ∧
    (["Alice", "Bob", "Charlie", "David"].map
        (fun n => RequestMessage.mk "processNames" [("name", .str n)])).map getNameStr =
      ["Alice", "Bob", "Charlie", "David"].map Except.ok :=
  ⟨rfl, rfl, rfl⟩

/-- C3 counterexample: the demo deserializers do not reject malformed
input with an error — the empty JSON object, which is not a well-formed
encoding of a `CreateUserRequest`, deserializes to a fully default-filled
message. -/
theorem c3_counterexample_default_filled :
    deserialize_create_user_request (some (.obj [])) =
      .ok ⟨⟨0, "", "", true, [], none, []⟩⟩ := rfl

/-- C3 amended: every decode entry point rejects bytes that are not valid
JSON; `RequestMessage.deserialize` and `ResponseMessage.deserialize`
additionally reject a missing required key, and the demo deserializers
reject a non-object receiver — but the demo deserializers fill absent
fields with defaults instead of failing. -/
theorem c3_amended_decode_rejection :
    (RequestMessage.deserialize none = .error .decodeError) ∧
    (∀ fields, lookupField fields "method" = none →
      RequestMessage.deserialize (some (.obj fields)) = .error (.keyError "method")) ∧
    (ResponseMessage.deserialize none = .error .decodeError) ∧
    (∀ fields, lookupField fields "result" = none →
      ResponseMessage.deserialize (some (.obj fields)) = .error (.keyError "result")) ∧
    (deserialize_create_user_request none = .error .decodeError) ∧
    (∀ fields, lookupField fields "user" = none →
      deserialize_create_user_request (some (.obj fields)) =
        .ok ⟨⟨0, "", "", true, [], none, []⟩⟩) ∧
    (∀ s, deserialize_user (.str s) = .error .attributeError) := by
  refine ⟨rfl, ?_, rfl, ?_, rfl, ?_, fun s => rfl⟩
  · intro fields h
    simp [RequestMessage.deserialize, dictIndex, h]
  · intro fields h
    simp [ResponseMessage.deserialize, dictIndex, h]
  · intro fields h
    simp [deserialize_create_user_request, dictGet, h]
    rfl

/-- C3 amended, witnessed at concrete inputs. -/
theorem c3_amended_witness :
    RequestMessage.deserialize (some (.obj [])) = .error (.keyError "method") ∧
    ResponseMessage.deserialize (some (.obj [])) = .error (.keyError "result") ∧
    deserialize_create_user_request (some (.obj [("x", .num 1)])) =
      .ok ⟨⟨0, "", "", true, [], none, []⟩⟩ ∧
    deserialize_user (.str "zzz") = .error .attributeError :=
  ⟨c3_amended_decode_rejection.2.1 [] rfl,
   c3_amended_decode_rejection.2.2.2.1 [] rfl,
   c3_amended_decode_rejection.2.2.2.2.2.1 [("x", .num 1)] rfl,
   c3_amended_decode_rejection.2.2.2.2.2.2 "zzz"⟩

/-- C4 counterexample: the protobuf branch does not round-trip — it runs
through the mock fallback, so deserializing the serialization of
`GetUserRequest(id=1)` raises a validation error instead of returning the
value. -/
theorem c4_counterexample_protobuf_round_trip_fails :
    deserialize_model GetUserRequest.model_validate
        (serialize_model GetUserRequest.model_dump ⟨1⟩ .protobuf) .protobuf =
      .error (.validationError "id") ∧
    deserialize_model GetUserRequest.model_validate
        (serialize_model GetUserRequest.model_dump ⟨1⟩ .protobuf) .protobuf ≠
      .ok ⟨1⟩ := by
  constructor
  · rfl
  · intro h
    exact Except.noConfusion (rfl.trans h :
      (Except.error (.validationError "id") : Except PyErr GetUserRequest) = .ok ⟨1⟩)

/-- C4 amended: `serialize_model` / `deserialize_model` accept a format
selector from json and protobuf and dispatch to the matching codec pair;
for the json selector the round trip holds for every valid model value of
each demo model class, while the protobuf branch is the mock placeholder:
it serializes every model to the constant placeholder bytes and
deserializes by validating the empty dict, so it does not round-trip. -/
theorem c4_amended_format_dispatch :
    (∀ {α : Type} (dump : α → Json) (m : α),
      serialize_model dump m .json = .json (dump m)) ∧
    (∀ {α : Type} (dump : α → Json) (m : α),
      serialize_model dump m .protobuf = .raw mockProtoBytes) ∧
    (∀ {α : Type} (validate : Json → Except PyErr α) (w : Wire),
      deserialize_model validate w .protobuf = validate (.obj [])) ∧
    (∀ a : Address, deserialize_model Address.model_validate
      (serialize_model Address.model_dump a .json) .json = .ok a) ∧
    (∀ u : User, deserialize_model User.model_validate
      (serialize_model User.model_dump u .json) .json = .ok u) ∧
    (∀ r : CreateUserRequest, deserialize_model CreateUserRequest.model_validate
      (serialize_model CreateUserRequest.model_dump r .json) .json = .ok r) ∧
    (∀ r : CreateUserResponse, deserialize_model CreateUserResponse.model_validate
      (serialize_model CreateUserResponse.model_dump r .json) .json = .ok r) ∧
    (∀ r : GetUserRequest, deserialize_model GetUserRequest.model_validate
      (serialize_model GetUserRequest.model_dump r .json) .json = .ok r) ∧
    (∀ r : GetUserResponse, deserialize_model GetUserResponse.model_validate
      (serialize_model GetUserResponse.model_dump r .json) .json = .ok r) := by
  refine ⟨fun _ _ => rfl, fun _ _ => rfl, fun _ _ => rfl, fun a => ?_, fun u => ?_,
    fun r => ?_, fun r => ?_, fun r => ?_, fun r => ?_⟩
  · obtain ⟨s, c, co, p⟩ := a
    exact Address_validate_obj s c co p
  · exact User_validate_dump u
  · obtain ⟨u⟩ := r
    simp [deserialize_model, serialize_model, ProtobufSerializer.serialize,
      ProtobufSerializer.deserialize, CreateUserRequest.model_dump,
      CreateUserRequest.model_validate, requireField, lookupField, User_validate_dump]
  · obtain ⟨u, status, created⟩ := r
    simp [deserialize_model, serialize_model, ProtobufSerializer.serialize,
      ProtobufSerializer.deserialize, CreateUserResponse.model_dump,
      CreateUserResponse.model_validate, requireField, lookupField, expectStr, expectNum,
      User_validate_dump]
  · rfl
  · obtain ⟨u⟩ := r
    cases u with
    | none => rfl
    | some u =>
      have h := User_validate_dump u
      simp only [User.model_dump] at h
      simp [deserialize_model, serialize_model, ProtobufSerializer.serialize,
        ProtobufSerializer.deserialize, GetUserResponse.model_dump,
        GetUserResponse.model_validate, requireField, lookupField, User.model_dump, h]

/-- C5: for every sequence of incoming chat messages, `ChatServicer.chat`
yields, for the i-th message, the mapped response in position i (the
mapped responses are followed only by the session summary), the
spec-modelled BidiStreaming Dispatcher delivers those responses in write
order, a message containing hello yields the hello greeting, and a message
matching none of the five keywords yields exactly the echo string. -/
theorem c5_bidi_per_message_mapping :
    (∀ msgs : List String,
      ChatServicer.chat (msgs.map chatRequest) =
        .ok (msgs.map ChatServicer.respond ++ [chatFinal msgs.length])) ∧
    (∀ msgs : List String,
      runBidiStreaming ChatServicer.chat (msgs.map chatRequestSerializer) =
        .ok ((msgs.map ChatServicer.respond ++ [chatFinal msgs.length]).map
          response_serializer)) ∧
    (∀ m : String, pyIn "hello" (pyLower m) = true →
      ChatServicer.respond m = "Hello! Welcome to our service!") ∧
    (∀ m : String, matchesChatKeyword m = false →
      ChatServicer.respond m = "I received your message: " ++ sQuote ++ m ++ sQuote) := by
  refine ⟨fun msgs => ?_, fun msgs => ?_, fun m h => ?_, fun m h => ?_⟩
  · have := chatGo_map msgs 0
    simpa [ChatServicer.chat] using this
  · have h1 := chatGo_map msgs 0
    simp [runBidiStreaming, decodeFrames_chat, ChatServicer.chat, h1]
  · simp [ChatServicer.respond, h]
  · simp only [matchesChatKeyword, Bool.or_eq_false_iff] at h
    obtain ⟨⟨⟨⟨h1, h2⟩, h3⟩, h4⟩, h5⟩ := h
    simp [ChatServicer.respond, h1, h2, h3, h4, h5]

/-- C5, witnessed at concrete inputs: an unmatched message is echoed, a
message containing HELLO gets the greeting, and a two-message chat maps
position by position. -/
theorem c5_witness :
    ChatServicer.respond "What is the weather" =
      "I received your message: " ++ sQuote ++ "What is the weather" ++ sQuote ∧
    ChatServicer.respond "Well HELLO there" = "Hello! Welcome to our service!" ∧
    ChatServicer.chat [chatRequest "hello", chatRequest "kumquat"] =
      .ok ["Hello! Welcome to our service!",
        "I received your message: " ++ sQuote ++ "kumquat" ++ sQuote,
        chatFinal 2] :=
  ⟨c5_bidi_per_message_mapping.2.2.2 "What is the weather" (by decide),
   c5_bidi_per_message_mapping.2.2.1 "Well HELLO there" (by decide),
   c5_bidi_per_message_mapping.1 ["hello", "kumquat"]⟩

/-- C6: on the spec-modelled Unary runtime, one request followed by
end-of-stream yields exactly one response and then end-of-stream at the
stub, while a transcript in which a second request arrives before
end-of-stream fails with ProtocolViolation and produces no response. -/
theorem c6_unary_protocol :
    (∀ name : String,
      runUnary GreeterServicer.say_hello [unaryRequestSerializer name] =
        .ok [response_serializer ("Hello, " ++ name ++ "!")] ∧
      GreeterServiceStub.say_hello name =
        .ok [.message (.str ("Hello, " ++ name ++ "!")), .endOfStream]) ∧
    (∀ (f1 f2 : Json) (rest : List Json),
      runUnary GreeterServicer.say_hello (f1 :: f2 :: rest) = .error .protocolViolation) :=
  ⟨fun _ => ⟨rfl, rfl⟩, fun _ _ _ => rfl⟩

/-- C8: `GreeterServicer.say_hello` greets Guest when the params dict
lacks the key name, and greets the mapped string value when present. -/
theorem c8_say_hello (req : RequestMessage) :
    (lookupField req.params "name" = none →
      GreeterServicer.say_hello req = "Hello, Guest!") ∧
    (∀ n : String, lookupField req.params "name" = some (.str n) →
      GreeterServicer.say_hello req = "Hello, " ++ n ++ "!") := by
  constructor
  · intro h
    simp [GreeterServicer.say_hello, h, pyStr]
  · intro n h
    simp [GreeterServicer.say_hello, h, pyStr]

/-- C8, witnessed at concrete requests. -/
theorem c8_witness :
    GreeterServicer.say_hello ⟨"sayHello", []⟩ = "Hello, Guest!" ∧
    GreeterServicer.say_hello ⟨"sayHello", [("name", .str "PythonUser")]⟩ =
      "Hello, PythonUser!" :=
  ⟨(c8_say_hello ⟨"sayHello", []⟩).1 rfl,
   (c8_say_hello ⟨"sayHello", [("name", .str "PythonUser")]⟩).2 "PythonUser" rfl⟩

/-- C9: for every user value, the manual serializer of current_approach
and the pydantic JSON path of improved_approach emit the same JSON tree
for the user and for the whole `CreateUserRequest`, and each approach
accepts the output of the other, recovering the equal value. -/
theorem c9_json_wire_interchangeable (u : User) :
    serialize_user u = User.model_dump u ∧
    serialize_create_user_request ⟨u⟩ = CreateUserRequest.model_dump ⟨u⟩ ∧
    serialize_model CreateUserRequest.model_dump ⟨u⟩ .json =
      .json (serialize_create_user_request ⟨u⟩) ∧
    CreateUserRequest.model_validate (serialize_create_user_request ⟨u⟩) = .ok ⟨u⟩ ∧
    deserialize_create_user_request (some (CreateUserRequest.model_dump ⟨u⟩)) = .ok ⟨u⟩ := by
  have hu := serialize_user_eq_model_dump u
  refine ⟨hu, ?_, ?_, ?_, ?_⟩
  · simp [serialize_create_user_request, CreateUserRequest.model_dump, hu]
  · simp [serialize_model, ProtobufSerializer.serialize, serialize_create_user_request,
      CreateUserRequest.model_dump, hu]
  · simp [serialize_create_user_request, CreateUserRequest.model_validate, requireField,
      lookupField, hu, User_validate_dump]
  · simp [deserialize_create_user_request, CreateUserRequest.model_dump, dictGet,
      lookupField, ← hu, deserialize_user_serialize]

/-- C10: in both approaches, `get_user` leaves the users map untouched,
and `create_user` modifies no entry other than the one at the decoded
`request.user.id` — in particular, when deserialization fails the whole
state is unchanged. -/
theorem c10_frame (stC : CurrentApproach.ServiceState) (stI : ImprovedApproach.ServiceState)
    (inC : Option Json) (inI : Wire) (now : Int) :
    (CurrentApproach.UserService.get_user stC inC).1 = stC ∧
    (ImprovedApproach.UserService.get_user stI inI).1 = stI ∧
    (∀ request, deserialize_create_user_request inC = .ok request →
      ∀ k, k ≠ request.user.id →
        ((CurrentApproach.UserService.create_user stC inC now).1).users k = stC.users k) ∧
    (∀ e, deserialize_create_user_request inC = .error e →
      (CurrentApproach.UserService.create_user stC inC now).1 = stC) ∧
    (∀ request, deserialize_model CreateUserRequest.model_validate inI stI.format = .ok request →
      ∀ k, k ≠ request.user.id →
        ((ImprovedApproach.UserService.create_user stI inI now).1).users k = stI.users k) ∧
    (∀ e, deserialize_model CreateUserRequest.model_validate inI stI.format = .error e →
      (ImprovedApproach.UserService.create_user stI inI now).1 = stI) := by
  refine ⟨?_, ?_, ?_, ?_, ?_, ?_⟩
  · unfold CurrentApproach.UserService.get_user
    cases deserialize_get_user_request inC <;> simp
  · unfold ImprovedApproach.UserService.get_user
    cases deserialize_model GetUserRequest.model_validate inI stI.format <;> simp
  · intro request h k hk
    unfold CurrentApproach.UserService.create_user
    rw [h]
    simp [hk]
  · intro e h
    unfold CurrentApproach.UserService.create_user
    rw [h]
  · intro request h k hk
    unfold ImprovedApproach.UserService.create_user
    rw [h]
    simp [hk]
  · intro e h
    unfold ImprovedApproach.UserService.create_user
    rw [h]

/-- C10, witnessed at concrete states and requests: creating user 1 leaves
the entry at key 5 untouched in both approaches. -/
theorem c10_witness :
    ((CurrentApproach.UserService.create_user ⟨fun _ => none⟩
        (some (.obj [("user", .obj [("id", .num 1)])])) 7).1).users 5 = none ∧
    ((ImprovedApproach.UserService.create_user ⟨fun _ => none, .json⟩
        (.json (.obj [("user", .obj [("id", .num 1), ("name", .str "A"),
          ("email", .str "a")])])) 7).1).users 5 = none :=
  ⟨(c10_frame ⟨fun _ => none⟩ ⟨fun _ => none, .json⟩
      (some (.obj [("user", .obj [("id", .num 1)])])) (.json .null) 7).2.2.1
      ⟨⟨1, "", "", true, [], none, []⟩⟩ rfl 5 (by decide),
   (c10_frame ⟨fun _ => none⟩ ⟨fun _ => none, .json⟩ none
      (.json (.obj [("user", .obj [("id", .num 1), ("name", .str "A"),
        ("email", .str "a")])])) 7).2.2.2.2.1
      ⟨⟨1, "A", "a", true, [], none, []⟩⟩ rfl 5 (by decide)⟩
